import Mathlib

/-!
Shallow embedding of the GitCentral status-reconciliation engine
(Plugins/GitCentral/Source/GitCentral/Private), covering:

* the working-copy state enumeration and its one-character codes
  (GitSourceControlState.cpp, EWorkingCopyState::ToChar / FromChar);
* the file-state structure FGitSourceControlState and the four state
  combination steps CombineWithLocalState, CombineWithSavedState,
  CombineWithRemoteState, CombineWithLockedState;
* the cache update rule (operator== and GitSourceControlUtils::UpdateCachedStates);
* the persisted status ledger FGitSourceControlStatusFile
  (GetState / SetState / ClearState / Save) and SavedState::FromJson;
* the provider command queue Tick (GitSourceControlProvider.cpp) and the
  early no-op path of FGitSyncWorker::GetLatest (GitSourceControlOperations.cpp).

Machine-level details that the verified properties do not depend on are
abstracted as follows: timestamps are integers, revision identifiers and
file names are strings, the history list stores revision identifiers, and
file-system / subprocess outcomes are passed in as explicit parameters.
Diagnostic logging (the GITCENTRAL_ERROR macro) is modelled as a boolean
flag returned next to the combined state.
-/

namespace GitCentral

/-- Embeds enum EWorkingCopyState::Type (GitSourceControlState.h, lines 14-30). -/
inductive EWorkingCopyState where
  | Unknown
  | Unchanged
  | Added
  | Deleted
  | Modified
  | CheckedOut
  | Conflicted
  | ForcedWriteable
  | NotControlled
  | Ignored
  | Outdated
  | Missing
deriving DecidableEq, Repr, Fintype

/-- Embeds EWorkingCopyState::ToChar (GitSourceControlState.cpp, lines 9-36). -/
def EWorkingCopyState.ToChar : EWorkingCopyState → Char
  | .Added => 'A'
  | .Deleted => 'D'
  | .Modified => 'M'
  | .CheckedOut => 'L'
  | .ForcedWriteable => 'L'
  | .Conflicted => 'U'
  | .NotControlled => '?'
  | .Ignored => '!'
  | _ => '0'

/-- Embeds EWorkingCopyState::FromChar (GitSourceControlState.cpp, lines 38-61). -/
def EWorkingCopyState.FromChar : Char → EWorkingCopyState
  | 'A' => .Added
  | 'D' => .Deleted
  | 'M' => .Modified
  | 'L' => .CheckedOut
  | 'U' => .Conflicted
  | '?' => .NotControlled
  | '!' => .Ignored
  | _ => .Unknown

/-- Embeds struct SavedState (GitSourceControlState.h, lines 48-60):
the persisted per-file ledger entry. -/
structure SavedState where
  State : EWorkingCopyState := .Unknown
  CheckedOutRevision : String := "0"
deriving DecidableEq, Repr

/-- Embeds the data members of FGitSourceControlState
(GitSourceControlState.h, lines 183-216). History items are abstracted to
their revision identifiers; FDateTime is abstracted to an integer. -/
structure FGitSourceControlState where
  History : List String := []
  AbsoluteFilename : String := ""
  WorkingCopyState : EWorkingCopyState := .Unknown
  RemoteState : EWorkingCopyState := .Unknown
  TimeStamp : Int := 0
  CheckedOutRevision : String := "0"
  UserLocked : String := ""
  LockId : Int := -1
  bLockedByOther : Bool := false
  bOutdated : Bool := false
  bStaged : Bool := false
deriving DecidableEq, Repr

namespace FGitSourceControlState

/-- Embeds FGitSourceControlState::IsLockedByMe (GitSourceControlState.cpp,
lines 658-661). -/
def IsLockedByMe (s : FGitSourceControlState) : Bool :=
  !s.bLockedByOther && !s.UserLocked.isEmpty

/-- Embeds FGitSourceControlState::IsCheckedOutOther with no out-parameter
(GitSourceControlState.cpp, lines 590-600). -/
def IsCheckedOutOther (s : FGitSourceControlState) : Bool :=
  if !s.bLockedByOther then false else !s.UserLocked.isEmpty

/-- Embeds FGitSourceControlState::IsModified (GitSourceControlState.cpp,
lines 553-568). -/
def IsModified (s : FGitSourceControlState) : Bool :=
  match s.WorkingCopyState with
  | .Added | .Deleted | .Modified | .Conflicted | .NotControlled | .ForcedWriteable => true
  | _ => false

/-- Embeds FGitSourceControlState::IsCheckedOut (GitSourceControlState.cpp,
lines 570-588); the default branch falls back to IsLockedByMe. -/
def IsCheckedOut (s : FGitSourceControlState) : Bool :=
  match s.WorkingCopyState with
  | .Added | .Deleted | .Modified | .Conflicted | .CheckedOut | .ForcedWriteable => true
  | _ => s.IsLockedByMe

/-- Embeds FGitSourceControlState::IsConflicted (GitSourceControlState.cpp,
lines 653-656). -/
def IsConflicted (s : FGitSourceControlState) : Bool :=
  s.WorkingCopyState = .Conflicted

/-- Embeds FGitSourceControlState::CombineWithLocalState
(GitSourceControlState.cpp, lines 65-129). The returned boolean records
whether the GITCENTRAL_ERROR diagnostic was emitted. The C++ switch falls
through from the Outdated/Missing error case into the default
keep-unless-unknown case. -/
def CombineWithLocalState (s other : FGitSourceControlState) :
    FGitSourceControlState × Bool :=
  let ts := if other.TimeStamp > s.TimeStamp then other.TimeStamp else s.TimeStamp
  let s := { s with TimeStamp := ts }
  match other.WorkingCopyState with
  | .Added =>
    match s.WorkingCopyState with
    | .Deleted => ({ s with WorkingCopyState := .Modified }, false)
    | _ => (s, true)
  | .Deleted => ({ s with WorkingCopyState := .Deleted }, false)
  | .Modified =>
    match s.WorkingCopyState with
    | .Added => ({ s with WorkingCopyState := .Added }, false)
    | .Modified => ({ s with WorkingCopyState := .Modified }, false)
    | _ => (s, true)
  | .Conflicted => ({ s with WorkingCopyState := .Conflicted }, false)
  | .Outdated | .Missing =>
    (if s.WorkingCopyState = .Unknown
      then { s with WorkingCopyState := other.WorkingCopyState } else s, true)
  | _ =>
    (if s.WorkingCopyState = .Unknown
      then { s with WorkingCopyState := other.WorkingCopyState } else s, false)

/-- Embeds FGitSourceControlState::CombineWithSavedState
(GitSourceControlState.cpp, lines 131-188). CheckedOutRevision is taken
from the saved state before the switch; the NotControlled sub-case falls
through to keep-state when the saved revision is the sentinel. -/
def CombineWithSavedState (s : FGitSourceControlState) (savedState : SavedState)
    (localBranchSha : String) : FGitSourceControlState :=
  let s := { s with CheckedOutRevision := savedState.CheckedOutRevision }
  match savedState.State with
  | .Modified | .CheckedOut =>
    match s.WorkingCopyState with
    | .Unknown | .Unchanged => { s with WorkingCopyState := .CheckedOut }
    | .NotControlled =>
      if s.CheckedOutRevision != "0"
        then { s with WorkingCopyState := .Modified } else s
    | _ => s
  | .Conflicted => { s with WorkingCopyState := .Conflicted }
  | .Unknown | .Unchanged =>
    if s.IsModified && s.CheckedOutRevision != "0"
        && s.CheckedOutRevision != localBranchSha
      then { s with WorkingCopyState := .Unchanged } else s
  | .Deleted => s
  | _ =>
    if s.WorkingCopyState = .Unknown
      then { s with WorkingCopyState := savedState.State } else s

/-- Embeds FGitSourceControlState::CombineWithRemoteState
(GitSourceControlState.cpp, lines 190-257). RemoteState is recorded before
the switch; the boolean records the GITCENTRAL_ERROR diagnostic. -/
def CombineWithRemoteState (s other : FGitSourceControlState) :
    FGitSourceControlState × Bool :=
  let ts := if other.TimeStamp > s.TimeStamp then other.TimeStamp else s.TimeStamp
  let s := { s with TimeStamp := ts, RemoteState := other.WorkingCopyState }
  match other.WorkingCopyState with
  | .Added =>
    match s.WorkingCopyState with
    | .Deleted => ({ s with WorkingCopyState := .Deleted, bOutdated := false }, false)
    | .Unknown => ({ s with WorkingCopyState := .Missing, bOutdated := true }, false)
    | .CheckedOut | .Modified | .Added | .NotControlled =>
      ({ s with WorkingCopyState := .Conflicted, bOutdated := true }, false)
    | _ => (s, true)
  | .Deleted =>
    if s.WorkingCopyState = .Deleted then
      ({ s with WorkingCopyState := .Unknown }, false)
    else
      ({ s with
          WorkingCopyState := if s.IsModified || s.IsCheckedOut then .Conflicted else .Outdated,
          bOutdated := true }, false)
  | .Modified =>
    if s.WorkingCopyState = .Deleted then (s, false)
    else
      ({ s with
          WorkingCopyState := if s.IsModified || s.IsCheckedOut then .Conflicted else .Outdated,
          bOutdated := true }, false)
  | .Outdated | .Missing | .Conflicted | .NotControlled | .CheckedOut => (s, true)
  | _ => (s, false)

/-- Embeds the first three assignments of CombineWithLockedState
(GitSourceControlState.cpp, lines 263-265): UserLocked, bLockedByOther and
LockId are copied from the other state. -/
def applyLockFields (s other : FGitSourceControlState) : FGitSourceControlState :=
  { s with
    UserLocked := other.UserLocked
    bLockedByOther := other.bLockedByOther
    LockId := other.LockId }

/-- Embeds FGitSourceControlState::CombineWithLockedState
(GitSourceControlState.cpp, lines 259-298). The lock fields are copied from
the other state before the branch on IsLockedByMe; the boolean records the
GITCENTRAL_ERROR diagnostic emitted in the Missing/default case. -/
def CombineWithLockedState (s other : FGitSourceControlState) :
    FGitSourceControlState × Bool :=
  let s := applyLockFields s other
  if s.IsLockedByMe then
    match s.WorkingCopyState with
    | .Added | .Deleted | .Modified | .Outdated | .NotControlled
    | .Conflicted | .CheckedOut => (s, false)
    | .Ignored | .Unknown | .Unchanged =>
      ({ s with WorkingCopyState := .CheckedOut }, false)
    | _ => (s, true)
  else if s.IsModified || s.IsCheckedOut then
    ({ s with WorkingCopyState := .ForcedWriteable }, false)
  else
    (s, false)

/-- Embeds FGitSourceControlState::operator== (GitSourceControlState.cpp,
lines 310-321): equality on the eight published fields, ignoring History,
TimeStamp and LockId. -/
def stateEq (a b : FGitSourceControlState) : Bool :=
  a.WorkingCopyState = b.WorkingCopyState
  && a.RemoteState = b.RemoteState
  && a.bOutdated = b.bOutdated
  && a.bStaged = b.bStaged
  && a.CheckedOutRevision = b.CheckedOutRevision
  && a.AbsoluteFilename = b.AbsoluteFilename
  && a.UserLocked = b.UserLocked
  && a.bLockedByOther = b.bLockedByOther

end FGitSourceControlState

/-- Specification table for the local-commits fold, written from the amended
claim about CombineWithLocalState: new Added with old Deleted gives Modified;
new Deleted always gives Deleted; new Modified keeps the old state (Added stays
Added, Modified stays Modified); new Conflicted always gives Conflicted; every
other new state (NotControlled, Ignored, Unknown, Unchanged, CheckedOut,
ForcedWriteable, Outdated, Missing) keeps the old state unless the old state is
Unknown, in which case the new state is taken. -/
def localCombineSpec (newState oldState : EWorkingCopyState) : EWorkingCopyState :=
  match newState with
  | .Added => if oldState = .Deleted then .Modified else oldState
  | .Deleted => .Deleted
  | .Modified => oldState
  | .Conflicted => .Conflicted
  | _ => if oldState = .Unknown then newState else oldState

/-- Specification table for the diagnostic emitted by the local-commits fold,
written from the amended claim: a diagnostic is emitted for new Added with old
state other than Deleted, for new Modified with old state other than Added or
Modified, and always for new Outdated or Missing. -/
def localCombineDiagSpec (newState oldState : EWorkingCopyState) : Bool :=
  match newState with
  | .Added => !(oldState == .Deleted)
  | .Modified => !(oldState == .Added || oldState == .Modified)
  | .Outdated | .Missing => true
  | _ => false

/-- Embeds the provider's per-path state cache (TMap of
FGitSourceControlProvider::StateCache), as an association list keyed by
absolute filename. -/
abbrev StateCache := List (String × FGitSourceControlState)

/-- Embeds TMap::Find on the state cache: the value stored for the key, if
present. -/
def cacheFind : StateCache → String → Option FGitSourceControlState
  | [], _ => none
  | (k, v) :: rest, fn => if k = fn then some v else cacheFind rest fn

/-- Embeds writing a value through to the state cache under a key: an existing
entry is replaced in place, a missing key is appended (as TMap::Add does for
GetStateInternal, and as assigning through the shared reference does for
UpdateCachedStates). -/
def cacheSet : StateCache → String → FGitSourceControlState → StateCache
  | [], fn, v => [(fn, v)]
  | (k, w) :: rest, fn, v =>
    if k = fn then (fn, v) :: rest else (k, w) :: cacheSet rest fn v

/-- Embeds FGitSourceControlProvider::GetStateInternal
(GitSourceControlProvider.cpp, lines 149-164): return the cached state for the
filename, or cache and return a fresh default state for it. -/
def GetStateInternal (cache : StateCache) (filename : String) :
    FGitSourceControlState × StateCache :=
  match cacheFind cache filename with
  | some st => (st, cache)
  | none =>
    let newState : FGitSourceControlState := { AbsoluteFilename := filename }
    (newState, cacheSet cache filename newState)

/-- Embeds the loop body of GitSourceControlUtils::UpdateCachedStates
(GitSourceControlUtils.cpp, lines 1706-1726): for each incoming state, fetch
the cached state, and when it differs under operator== replace it wholesale
while preserving the cached History and stamping the current time; returns the
number of entries updated together with the new cache. -/
def UpdateCachedStatesGo (now : Int) :
    StateCache → List FGitSourceControlState → Nat × StateCache
  | cache, [] => (0, cache)
  | cache, inState :: rest =>
    let found := GetStateInternal cache inState.AbsoluteFilename
    if FGitSourceControlState.stateEq found.1 inState then
      UpdateCachedStatesGo now found.2 rest
    else
      let newState := { inState with History := found.1.History, TimeStamp := now }
      let next :=
        UpdateCachedStatesGo now (cacheSet found.2 inState.AbsoluteFilename newState) rest
      (next.1 + 1, next.2)

/-- Embeds GitSourceControlUtils::UpdateCachedStates
(GitSourceControlUtils.cpp, lines 1706-1726): true when at least one cache
entry was updated. -/
def UpdateCachedStates (now : Int) (cache : StateCache)
    (inStates : List FGitSourceControlState) : Bool × StateCache :=
  let r := UpdateCachedStatesGo now cache inStates
  (decide (0 < r.1), r.2)

/-- Embeds the SavedStates / CachedStates maps of FGitSourceControlStatusFile
(TMap keyed by absolute file path), as an association list. -/
abbrev SavedStatesMap := List (String × SavedState)

/-- Embeds TMap::Find on a saved-states map. -/
def savedFind : SavedStatesMap → String → Option SavedState
  | [], _ => none
  | (k, v) :: rest, fn => if k = fn then some v else savedFind rest fn

/-- Embeds TMap::Add on a saved-states map: replace an existing entry or append
a new one. -/
def savedSet : SavedStatesMap → String → SavedState → SavedStatesMap
  | [], fn, v => [(fn, v)]
  | (k, w) :: rest, fn, v =>
    if k = fn then (fn, v) :: rest else (k, w) :: savedSet rest fn v

/-- Embeds TMap::Remove on a saved-states map. -/
def savedRemove : SavedStatesMap → String → SavedStatesMap
  | [], _ => []
  | (k, w) :: rest, fn =>
    if k = fn then savedRemove rest fn else (k, w) :: savedRemove rest fn

/-- Embeds the data members of FGitSourceControlStatusFile
(GitSourceControlStatusFile.h): the in-memory ledger map, the snapshot copy
used for rollback, and the dirty flag. The LoadedData JSON mirror is not
modelled; whether writing the serialized document to disk succeeds is passed
to each operation as the explicit persistOk parameter. -/
structure FGitSourceControlStatusFile where
  SavedStates : SavedStatesMap := []
  CachedStates : SavedStatesMap := []
  bDirty : Bool := false
deriving DecidableEq, Repr

namespace FGitSourceControlStatusFile

/-- Embeds FGitSourceControlStatusFile::GetState
(GitSourceControlStatusFile.cpp, lines 43-53): the stored entry, or a default
SavedState when absent. -/
def GetState (sf : FGitSourceControlStatusFile) (filePath : String) : SavedState :=
  (savedFind sf.SavedStates filePath).getD {}

/-- Embeds FGitSourceControlStatusFile::Save
(GitSourceControlStatusFile.cpp, lines 109-174): success without touching
state when not dirty and not forced; otherwise persistOk tells whether the
serialize-and-write step succeeds, and on success the dirty flag is cleared
and the snapshot cache is cleared. -/
def Save (persistOk : Bool) (sf : FGitSourceControlStatusFile)
    (bForce : Bool) : Bool × FGitSourceControlStatusFile :=
  if !sf.bDirty && !bForce then (true, sf)
  else if persistOk then (true, { sf with bDirty := false, CachedStates := [] })
  else (false, sf)

/-- Embeds FGitSourceControlStatusFile::SetState
(GitSourceControlStatusFile.cpp, lines 55-89). In the branch where the path
already has an entry, the source initializes OldState from InState (line 63),
not from the entry found in the map, and restores that copy on save failure;
in the branch where the path is new, save failure removes the added entry.
The dirty flag is restored on the failure path. -/
def SetState (persistOk : Bool) (sf : FGitSourceControlStatusFile)
    (filePath : String) (inState : SavedState) (bSave : Bool) :
    Bool × FGitSourceControlStatusFile :=
  let bWasDirty := sf.bDirty
  let sf := { sf with bDirty := true }
  match savedFind sf.SavedStates filePath with
  | some _ =>
    let oldState := inState
    let sf1 := { sf with SavedStates := savedSet sf.SavedStates filePath inState }
    if !bSave then (true, sf1)
    else
      let r := Save persistOk sf1 false
      if r.1 then (true, r.2)
      else
        (false, { r.2 with
          SavedStates := savedSet r.2.SavedStates filePath oldState
          bDirty := bWasDirty })
  | none =>
    let sf1 := { sf with SavedStates := savedSet sf.SavedStates filePath inState }
    if !bSave then (true, sf1)
    else
      let r := Save persistOk sf1 false
      if r.1 then (true, r.2)
      else
        (false, { r.2 with
          SavedStates := savedRemove r.2.SavedStates filePath
          bDirty := bWasDirty })

/-- Embeds FGitSourceControlStatusFile::ClearState
(GitSourceControlStatusFile.cpp, lines 91-107). The entry is removed before
the save; on save failure only the dirty flag is restored — the removed entry
is not re-added. -/
def ClearState (persistOk : Bool) (sf : FGitSourceControlStatusFile)
    (filePath : String) (bSave : Bool) : Bool × FGitSourceControlStatusFile :=
  let bWasDirty := sf.bDirty
  let sf := { sf with bDirty := true }
  let bFound := (savedFind sf.SavedStates filePath).isSome
  let sf := { sf with SavedStates := savedRemove sf.SavedStates filePath }
  if bFound then
    if !bSave then (true, sf)
    else
      let r := Save persistOk sf false
      if r.1 then (true, r.2)
      else (false, { r.2 with bDirty := bWasDirty })
  else (false, { sf with bDirty := bWasDirty })

/-- Embeds FGitSourceControlStatusFile::CacheStates
(GitSourceControlStatusFile.cpp, lines 23-26). -/
def CacheStates (sf : FGitSourceControlStatusFile) : FGitSourceControlStatusFile :=
  { sf with CachedStates := sf.SavedStates }

/-- Embeds FGitSourceControlStatusFile::RestoreCachedStates
(GitSourceControlStatusFile.cpp, lines 38-41). -/
def RestoreCachedStates (sf : FGitSourceControlStatusFile) : FGitSourceControlStatusFile :=
  { sf with SavedStates := sf.CachedStates }

end FGitSourceControlStatusFile

/-- Embeds the JSON object handed to SavedState::FromJson, restricted to its
string-valued fields (the only ones the function reads through
TryGetStringField). -/
structure FJsonObject where
  stringFields : List (String × String) := []
deriving DecidableEq, Repr

/-- Embeds FJsonObject::TryGetStringField: the value of the string field, if
the object has one of that name (on failure the C++ out-parameter is left
unchanged). -/
def FJsonObject.TryGetStringField (json : FJsonObject) (field : String) :
    Option String :=
  savedLookupString json.stringFields field
where
  savedLookupString : List (String × String) → String → Option String
    | [], _ => none
    | (k, v) :: rest, fn => if k = fn then some v else savedLookupString rest fn

/-- Embeds SavedState::FromJson (GitSourceControlState.cpp, lines 706-721),
acting on an initial SavedState value (the C++ method mutates this). The
result is none exactly when the function reaches the checked string access
StateString[0] with StateString empty (an out-of-bounds access in the C++),
and otherwise some of the returned boolean and the updated state. The guard
is translated literally: it returns false only when TryGetStringField failed
AND the (unassigned, hence empty) StateString has length one. -/
def SavedState.FromJson (self : SavedState) (json : Option FJsonObject) :
    Option (Bool × SavedState) :=
  match json with
  | none => some (false, self)
  | some j =>
    let tryGet := j.TryGetStringField "state"
    let stateString := tryGet.getD ""
    if !tryGet.isSome && stateString.length == 1 then some (false, self)
    else
      match stateString.data with
      | [] => none
      | c :: _ =>
        let self := { self with State := EWorkingCopyState.FromChar c }
        match j.TryGetStringField "revision" with
        | none => some (false, self)
        | some rev => some (true, { self with CheckedOutRevision := rev })

/-- Embeds the fields of FGitSourceControlCommand that
FGitSourceControlProvider::Tick inspects: a command identifier, the flag set
by the worker thread when Execute has finished, and the success flag. -/
structure FGitSourceControlCommand where
  id : Nat := 0
  bExecuteProcessed : Bool := false
  bCommandSuccessful : Bool := false
deriving DecidableEq, Repr

/-- Embeds the command-queue loop of FGitSourceControlProvider::Tick
(GitSourceControlProvider.cpp, lines 352-397): scan the queue in order, and
for the first command whose Execute has been processed, remove it from the
queue and hand it to UpdateStates / the completion delegate, then break out
of the loop. Returns the new queue and the command processed this tick, if
any. -/
def Tick : List FGitSourceControlCommand →
    List FGitSourceControlCommand × Option FGitSourceControlCommand
  | [] => ([], none)
  | c :: rest =>
    if c.bExecuteProcessed then (rest, some c)
    else
      let r := Tick rest
      (c :: r.1, r.2)

/-- Embeds enum GitIndexState (GitSourceControlUtils.h, lines 31-36). -/
inductive GitIndexState where
  | Invalid
  | Valid
  | MustResolveConflicts
deriving DecidableEq, Repr

/-- Embeds the values the early steps of FGitSyncWorker::GetLatest obtain from
the repository: the index validity check (RunCheckIndexValid), the remote
branch head SHA (GetCommitShaForBranch, empty string on failure) and the
merge-base of the local and remote branches (GetMergeBase, empty string on
failure). -/
structure SyncQueries where
  indexState : GitIndexState := .Valid
  remoteSha : String := ""
  mergeBase : String := ""
deriving DecidableEq, Repr

/-- Embeds the outcome of FGitSyncWorker::GetLatest: the returned boolean, the
status-file ledger after the call, and the list of mutating git actions
performed (stash, rebase, reset, ...). -/
structure SyncOutcome where
  success : Bool
  statusFile : FGitSourceControlStatusFile
  actions : List String
deriving DecidableEq, Repr

/-- Embeds the early steps of FGitSyncWorker::GetLatest
(GitSourceControlOperations.cpp, lines 932-960): abort on an invalid index,
on a missing remote head SHA, and on a missing merge-base; return no-op
success when the merge-base equals the remote head SHA. Everything from the
ledger snapshot (StatusFile.CacheStates) onward — stash, rebase, ledger
rewriting and persistence — is reached only past these checks and is
abstracted as the syncBody continuation. -/
def GetLatest (q : SyncQueries) (syncBody : FGitSourceControlStatusFile → SyncOutcome)
    (statusFile : FGitSourceControlStatusFile) : SyncOutcome :=
  if q.indexState ≠ GitIndexState.Valid then ⟨false, statusFile, []⟩
  else if q.remoteSha = "" then ⟨false, statusFile, []⟩
  else if q.mergeBase = "" then ⟨false, statusFile, []⟩
  else if q.mergeBase = q.remoteSha then ⟨true, statusFile, []⟩
  else syncBody statusFile

end GitCentral

/-- C9: EWorkingCopyState::ToChar maps Added to A, Deleted to D, Modified to M,
CheckedOut and ForcedWriteable to L, Conflicted to U, NotControlled to a question
mark, Ignored to an exclamation mark, and every other state (Unknown, Unchanged,
Outdated, Missing) to the digit zero; FromChar inverts this, so FromChar (ToChar s)
returns s for every state with a distinct code, while ForcedWriteable decodes back
to CheckedOut and the collapsed states decode to Unknown. -/
theorem GitCentral.toChar_fromChar_code_table :
    EWorkingCopyState.ToChar .Added = 'A'
    ∧ EWorkingCopyState.ToChar .Deleted = 'D'
    ∧ EWorkingCopyState.ToChar .Modified = 'M'
    ∧ EWorkingCopyState.ToChar .CheckedOut = 'L'
    ∧ EWorkingCopyState.ToChar .ForcedWriteable = 'L'
    ∧ EWorkingCopyState.ToChar .Conflicted = 'U'
    ∧ EWorkingCopyState.ToChar .NotControlled = '?'
    ∧ EWorkingCopyState.ToChar .Ignored = '!'
    ∧ EWorkingCopyState.ToChar .Unknown = '0'
    ∧ EWorkingCopyState.ToChar .Unchanged = '0'
    ∧ EWorkingCopyState.ToChar .Outdated = '0'
    ∧ EWorkingCopyState.ToChar .Missing = '0'
    ∧ EWorkingCopyState.FromChar (EWorkingCopyState.ToChar .Added) = .Added
    ∧ EWorkingCopyState.FromChar (EWorkingCopyState.ToChar .Deleted) = .Deleted
    ∧ EWorkingCopyState.FromChar (EWorkingCopyState.ToChar .Modified) = .Modified
    ∧ EWorkingCopyState.FromChar (EWorkingCopyState.ToChar .Conflicted) = .Conflicted
    ∧ EWorkingCopyState.FromChar (EWorkingCopyState.ToChar .NotControlled) = .NotControlled
    ∧ EWorkingCopyState.FromChar (EWorkingCopyState.ToChar .Ignored) = .Ignored
    ∧ EWorkingCopyState.FromChar (EWorkingCopyState.ToChar .CheckedOut) = .CheckedOut
    ∧ EWorkingCopyState.FromChar (EWorkingCopyState.ToChar .ForcedWriteable) = .CheckedOut
    ∧ EWorkingCopyState.FromChar (EWorkingCopyState.ToChar .Unknown) = .Unknown
    ∧ EWorkingCopyState.FromChar (EWorkingCopyState.ToChar .Unchanged) = .Unknown
    ∧ EWorkingCopyState.FromChar (EWorkingCopyState.ToChar .Outdated) = .Unknown
    ∧ EWorkingCopyState.FromChar (EWorkingCopyState.ToChar .Missing) = .Unknown := by
  decide

/-- C5 counterexample: combining a new state Outdated with an old state Unknown
does not leave the old state unchanged — the C++ switch falls through from the
Outdated/Missing diagnostic case into the default keep-unless-unknown case, so
the result is Outdated, contradicting the claim that any combination outside
the listed table rows leaves the old state unchanged. -/
theorem GitCentral.combineWithLocalState_outdated_unknown_counterexample :
    ((GitCentral.FGitSourceControlState.CombineWithLocalState
        { AbsoluteFilename := "f", WorkingCopyState := .Unknown }
        { AbsoluteFilename := "f", WorkingCopyState := .Outdated }).1.WorkingCopyState
      = .Outdated)
    ∧ ((GitCentral.FGitSourceControlState.CombineWithLocalState
        { AbsoluteFilename := "f", WorkingCopyState := .Unknown }
        { AbsoluteFilename := "f", WorkingCopyState := .Outdated }).1.WorkingCopyState
      ≠ .Unknown) := by
  exact ⟨rfl, by decide⟩

/-- C5 amended: the local-commits fold implements the precedence table
localCombineSpec — (Added, Deleted) gives Modified, new Deleted always gives
Deleted, (Modified, Added) gives Added, (Modified, Modified) gives Modified,
new Conflicted always gives Conflicted, and every other new state (including
Outdated and Missing, which first emit a diagnostic and then fall through)
keeps the old state unless the old state is Unknown, in which case the new
state is taken; a diagnostic (localCombineDiagSpec), never a fatal error, is
emitted exactly for unhandled combinations. -/
theorem GitCentral.combineWithLocalState_precedence_table
    (s other : GitCentral.FGitSourceControlState) :
    (GitCentral.FGitSourceControlState.CombineWithLocalState s other).1.WorkingCopyState
        = GitCentral.localCombineSpec other.WorkingCopyState s.WorkingCopyState
    ∧ (GitCentral.FGitSourceControlState.CombineWithLocalState s other).2
        = GitCentral.localCombineDiagSpec other.WorkingCopyState s.WorkingCopyState := by
  obtain ⟨h1, f1, w1, r1, t1, c1, u1, l1, lo1, o1, g1⟩ := s
  obtain ⟨h2, f2, w2, r2, t2, c2, u2, l2, lo2, o2, g2⟩ := other
  cases w1 <;> cases w2 <;> exact ⟨rfl, rfl⟩

/-- C2: in the remote fold, remote Modified or Deleted combined with a local
state Modified, CheckedOut or Added yields Conflicted with bOutdated set;
remote Added with local Deleted is a non-conflict that stays Deleted; remote
Modified or Deleted with no local activity (Unchanged or Unknown, no lock held
by the local identity) yields Outdated; remote Added with local Unknown yields
Missing with bOutdated set. -/
theorem GitCentral.combineWithRemoteState_conflict_rules :
    (∀ s other : GitCentral.FGitSourceControlState,
      (other.WorkingCopyState = .Modified ∨ other.WorkingCopyState = .Deleted) →
      (s.WorkingCopyState = .Modified ∨ s.WorkingCopyState = .CheckedOut
        ∨ s.WorkingCopyState = .Added) →
      (GitCentral.FGitSourceControlState.CombineWithRemoteState s other).1.WorkingCopyState
          = .Conflicted
      ∧ (GitCentral.FGitSourceControlState.CombineWithRemoteState s other).1.bOutdated = true)
    ∧ (∀ s other : GitCentral.FGitSourceControlState,
      other.WorkingCopyState = .Added → s.WorkingCopyState = .Deleted →
      (GitCentral.FGitSourceControlState.CombineWithRemoteState s other).1.WorkingCopyState
          = .Deleted
      ∧ (GitCentral.FGitSourceControlState.CombineWithRemoteState s other).1.bOutdated = false)
    ∧ (∀ s other : GitCentral.FGitSourceControlState,
      (other.WorkingCopyState = .Modified ∨ other.WorkingCopyState = .Deleted) →
      (s.WorkingCopyState = .Unchanged ∨ s.WorkingCopyState = .Unknown) →
      s.IsLockedByMe = false →
      (GitCentral.FGitSourceControlState.CombineWithRemoteState s other).1.WorkingCopyState
          = .Outdated
      ∧ (GitCentral.FGitSourceControlState.CombineWithRemoteState s other).1.bOutdated = true)
    ∧ (∀ s other : GitCentral.FGitSourceControlState,
      other.WorkingCopyState = .Added → s.WorkingCopyState = .Unknown →
      (GitCentral.FGitSourceControlState.CombineWithRemoteState s other).1.WorkingCopyState
          = .Missing
      ∧ (GitCentral.FGitSourceControlState.CombineWithRemoteState s other).1.bOutdated = true) := by
  refine ⟨?_, ?_, ?_, ?_⟩
  · intro s other h1 h2
    rcases h1 with h1 | h1 <;> rcases h2 with h2 | h2 | h2 <;>
      simp [GitCentral.FGitSourceControlState.CombineWithRemoteState,
        GitCentral.FGitSourceControlState.IsModified,
        GitCentral.FGitSourceControlState.IsCheckedOut, h1, h2]
  · intro s other h1 h2
    simp [GitCentral.FGitSourceControlState.CombineWithRemoteState, h1, h2]
  · intro s other h1 h2 h3
    simp only [GitCentral.FGitSourceControlState.IsLockedByMe] at h3
    rcases h1 with h1 | h1 <;> rcases h2 with h2 | h2 <;>
      simp [GitCentral.FGitSourceControlState.CombineWithRemoteState,
        GitCentral.FGitSourceControlState.IsModified,
        GitCentral.FGitSourceControlState.IsCheckedOut,
        GitCentral.FGitSourceControlState.IsLockedByMe, h1, h2, h3]
  · intro s other h1 h2
    simp [GitCentral.FGitSourceControlState.CombineWithRemoteState, h1, h2]

/-- Witness for the remote-fold rules: a locally Modified file that is Modified
on the remote becomes Conflicted and outdated; a locally Deleted file that is
Added on the remote stays Deleted; an Unchanged unlocked file that is Modified
on the remote becomes Outdated; a locally Unknown file Added on the remote
becomes Missing. -/
theorem GitCentral.combineWithRemoteState_conflict_rules_witness :
    ((GitCentral.FGitSourceControlState.CombineWithRemoteState
        { AbsoluteFilename := "f", WorkingCopyState := .Modified }
        { AbsoluteFilename := "f", WorkingCopyState := .Modified }).1.WorkingCopyState
          = .Conflicted
      ∧ (GitCentral.FGitSourceControlState.CombineWithRemoteState
        { AbsoluteFilename := "f", WorkingCopyState := .Modified }
        { AbsoluteFilename := "f", WorkingCopyState := .Modified }).1.bOutdated = true)
    ∧ ((GitCentral.FGitSourceControlState.CombineWithRemoteState
        { AbsoluteFilename := "f", WorkingCopyState := .Deleted }
        { AbsoluteFilename := "f", WorkingCopyState := .Added }).1.WorkingCopyState
          = .Deleted
      ∧ (GitCentral.FGitSourceControlState.CombineWithRemoteState
        { AbsoluteFilename := "f", WorkingCopyState := .Deleted }
        { AbsoluteFilename := "f", WorkingCopyState := .Added }).1.bOutdated = false)
    ∧ ((GitCentral.FGitSourceControlState.CombineWithRemoteState
        { AbsoluteFilename := "f", WorkingCopyState := .Unchanged }
        { AbsoluteFilename := "f", WorkingCopyState := .Modified }).1.WorkingCopyState
          = .Outdated
      ∧ (GitCentral.FGitSourceControlState.CombineWithRemoteState
        { AbsoluteFilename := "f", WorkingCopyState := .Unchanged }
        { AbsoluteFilename := "f", WorkingCopyState := .Modified }).1.bOutdated = true)
    ∧ ((GitCentral.FGitSourceControlState.CombineWithRemoteState
        { AbsoluteFilename := "f", WorkingCopyState := .Unknown }
        { AbsoluteFilename := "f", WorkingCopyState := .Added }).1.WorkingCopyState
          = .Missing
      ∧ (GitCentral.FGitSourceControlState.CombineWithRemoteState
        { AbsoluteFilename := "f", WorkingCopyState := .Unknown }
        { AbsoluteFilename := "f", WorkingCopyState := .Added }).1.bOutdated = true) := by
  refine ⟨?_, ?_, ?_, ?_⟩
  · exact GitCentral.combineWithRemoteState_conflict_rules.1 _ _ (Or.inl rfl) (Or.inl rfl)
  · exact GitCentral.combineWithRemoteState_conflict_rules.2.1 _ _ rfl rfl
  · exact GitCentral.combineWithRemoteState_conflict_rules.2.2.1 _ _ (Or.inl rfl)
      (Or.inl rfl) (by decide)
  · exact GitCentral.combineWithRemoteState_conflict_rules.2.2.2 _ _ rfl rfl

/-- C3: in the ledger fold, when the ledger entry's state is Unknown or
Unchanged but the current working-copy state is locally modified and the
pinned revision is a strict ancestor of the local branch head — in the code's
terms, a non-sentinel revision different from the local head SHA — the
resulting working-copy state is forced to Unchanged. -/
theorem GitCentral.combineWithSavedState_resync_artifact
    (s : GitCentral.FGitSourceControlState) (savedState : GitCentral.SavedState)
    (localBranchSha : String)
    (hstate : savedState.State = .Unknown ∨ savedState.State = .Unchanged)
    (hmod : s.IsModified = true)
    (hpin : savedState.CheckedOutRevision ≠ "0")
    (hhead : savedState.CheckedOutRevision ≠ localBranchSha) :
    (GitCentral.FGitSourceControlState.CombineWithSavedState s savedState
        localBranchSha).WorkingCopyState = .Unchanged := by
  rcases hstate with h | h <;>
    simp [GitCentral.FGitSourceControlState.CombineWithSavedState, h,
      GitCentral.FGitSourceControlState.IsModified] at hmod ⊢ <;>
    simp [hmod, hpin, hhead]

/-- Witness for the resync-artifact rule: a locally Modified file whose ledger
entry is Unknown at pinned revision aaa, with local head bbb, ends up
Unchanged. -/
theorem GitCentral.combineWithSavedState_resync_artifact_witness :
    (GitCentral.FGitSourceControlState.CombineWithSavedState
        { AbsoluteFilename := "f", WorkingCopyState := .Modified }
        { State := .Unknown, CheckedOutRevision := "aaa" }
        "bbb").WorkingCopyState = .Unchanged :=
  GitCentral.combineWithSavedState_resync_artifact _ _ _ (Or.inl rfl) rfl
    (by decide) (by decide)

/-- C6: in the lock fold, when the lock is held by the local identity a state
of Unknown or Unchanged is promoted to CheckedOut while Added, Deleted,
Modified, Outdated, Conflicted, NotControlled and CheckedOut pass through
unchanged; when the lock is held by another identity the state becomes
ForcedWriteable exactly when the file (with the lock fields applied) is
locally modified or checked out, and otherwise the working-copy state is left
unchanged with the lock reported only through IsCheckedOutOther. -/
theorem GitCentral.combineWithLockedState_rules :
    (∀ s other : GitCentral.FGitSourceControlState,
      other.bLockedByOther = false → other.UserLocked.isEmpty = false →
      (s.WorkingCopyState = .Unknown ∨ s.WorkingCopyState = .Unchanged) →
      (GitCentral.FGitSourceControlState.CombineWithLockedState s other).1.WorkingCopyState
        = .CheckedOut)
    ∧ (∀ s other : GitCentral.FGitSourceControlState,
      other.bLockedByOther = false → other.UserLocked.isEmpty = false →
      (s.WorkingCopyState = .Added ∨ s.WorkingCopyState = .Deleted
        ∨ s.WorkingCopyState = .Modified ∨ s.WorkingCopyState = .Outdated
        ∨ s.WorkingCopyState = .Conflicted ∨ s.WorkingCopyState = .NotControlled
        ∨ s.WorkingCopyState = .CheckedOut) →
      (GitCentral.FGitSourceControlState.CombineWithLockedState s other).1.WorkingCopyState
        = s.WorkingCopyState)
    ∧ (∀ s other : GitCentral.FGitSourceControlState,
      other.bLockedByOther = true → other.UserLocked.isEmpty = false →
      ((GitCentral.FGitSourceControlState.CombineWithLockedState s other).1.WorkingCopyState
          = .ForcedWriteable
        ↔ ((GitCentral.FGitSourceControlState.applyLockFields s other).IsModified
            || (GitCentral.FGitSourceControlState.applyLockFields s other).IsCheckedOut)
          = true))
    ∧ (∀ s other : GitCentral.FGitSourceControlState,
      other.bLockedByOther = true → other.UserLocked.isEmpty = false →
      ((GitCentral.FGitSourceControlState.applyLockFields s other).IsModified
          || (GitCentral.FGitSourceControlState.applyLockFields s other).IsCheckedOut)
        = false →
      (GitCentral.FGitSourceControlState.CombineWithLockedState s other).1.WorkingCopyState
        = s.WorkingCopyState
      ∧ (GitCentral.FGitSourceControlState.CombineWithLockedState s other).1.IsCheckedOutOther
        = true) := by
  refine ⟨?_, ?_, ?_, ?_⟩
  · intro s other h1 h2 h3
    rcases h3 with h3 | h3 <;>
      simp [GitCentral.FGitSourceControlState.CombineWithLockedState,
        GitCentral.FGitSourceControlState.applyLockFields,
        GitCentral.FGitSourceControlState.IsLockedByMe, h1, h2, h3]
  · intro s other h1 h2 h3
    rcases h3 with h3 | h3 | h3 | h3 | h3 | h3 | h3 <;>
      simp [GitCentral.FGitSourceControlState.CombineWithLockedState,
        GitCentral.FGitSourceControlState.applyLockFields,
        GitCentral.FGitSourceControlState.IsLockedByMe, h1, h2, h3]
  · intro s other h1 h2
    cases h3 : s.WorkingCopyState <;>
      simp [GitCentral.FGitSourceControlState.CombineWithLockedState,
        GitCentral.FGitSourceControlState.applyLockFields,
        GitCentral.FGitSourceControlState.IsLockedByMe,
        GitCentral.FGitSourceControlState.IsModified,
        GitCentral.FGitSourceControlState.IsCheckedOut, h1, h2, h3]
  · intro s other h1 h2 h3
    cases h4 : s.WorkingCopyState <;>
      simp [GitCentral.FGitSourceControlState.CombineWithLockedState,
        GitCentral.FGitSourceControlState.applyLockFields,
        GitCentral.FGitSourceControlState.IsLockedByMe,
        GitCentral.FGitSourceControlState.IsModified,
        GitCentral.FGitSourceControlState.IsCheckedOut,
        GitCentral.FGitSourceControlState.IsCheckedOutOther, h1, h2, h4] at h3 ⊢

/-- Witness for the lock-fold rules: with a lock held by the local identity
(user me, not locked by other), an Unchanged file is promoted to CheckedOut
and a Modified file passes through; with the lock held by another identity, a
Modified file becomes ForcedWriteable and an Unchanged file keeps its state
with the lock reported informationally. -/
theorem GitCentral.combineWithLockedState_rules_witness :
    ((GitCentral.FGitSourceControlState.CombineWithLockedState
        { AbsoluteFilename := "f", WorkingCopyState := .Unchanged }
        { AbsoluteFilename := "f", UserLocked := "me" }).1.WorkingCopyState
      = .CheckedOut)
    ∧ ((GitCentral.FGitSourceControlState.CombineWithLockedState
        { AbsoluteFilename := "f", WorkingCopyState := .Modified }
        { AbsoluteFilename := "f", UserLocked := "me" }).1.WorkingCopyState
      = .Modified)
    ∧ ((GitCentral.FGitSourceControlState.CombineWithLockedState
        { AbsoluteFilename := "f", WorkingCopyState := .Modified }
        { AbsoluteFilename := "f", UserLocked := "x", bLockedByOther := true
          }).1.WorkingCopyState = .ForcedWriteable
      ↔ ((GitCentral.FGitSourceControlState.applyLockFields
          { AbsoluteFilename := "f", WorkingCopyState := .Modified }
          { AbsoluteFilename := "f", UserLocked := "x", bLockedByOther := true
            }).IsModified
        || (GitCentral.FGitSourceControlState.applyLockFields
          { AbsoluteFilename := "f", WorkingCopyState := .Modified }
          { AbsoluteFilename := "f", UserLocked := "x", bLockedByOther := true
            }).IsCheckedOut) = true)
    ∧ ((GitCentral.FGitSourceControlState.CombineWithLockedState
        { AbsoluteFilename := "f", WorkingCopyState := .Unchanged }
        { AbsoluteFilename := "f", UserLocked := "x", bLockedByOther := true
          }).1.WorkingCopyState = .Unchanged
      ∧ (GitCentral.FGitSourceControlState.CombineWithLockedState
        { AbsoluteFilename := "f", WorkingCopyState := .Unchanged }
        { AbsoluteFilename := "f", UserLocked := "x", bLockedByOther := true
          }).1.IsCheckedOutOther = true) := by
  refine ⟨?_, ?_, ?_, ?_⟩
  · exact GitCentral.combineWithLockedState_rules.1 _ _ rfl (by decide) (Or.inr rfl)
  · exact GitCentral.combineWithLockedState_rules.2.1 _ _ rfl (by decide)
      (Or.inr (Or.inr (Or.inl rfl)))
  · exact GitCentral.combineWithLockedState_rules.2.2.1 _ _ rfl (by decide)
  · exact GitCentral.combineWithLockedState_rules.2.2.2 _ _ rfl (by decide) (by decide)

/-- C1 evaluation at the failing input: with an entry (CheckedOut, revision 1)
stored for path f, SetState of (Deleted, revision 2) with bSave true and a
failing persist step returns false but leaves the NEW value in the map (the
source initializes its rollback copy OldState from InState instead of the
found entry), so GetState returns (Deleted, revision 2) instead of the
pre-call value; ClearState with a failing persist step returns false yet the
entry stays removed, because the removal is never undone. -/
theorem GitCentral.statusFile_failed_persist_is_not_rolled_back :
    (GitCentral.FGitSourceControlStatusFile.SetState false
        { SavedStates := [("f", { State := .CheckedOut, CheckedOutRevision := "1" })] }
        "f" { State := .Deleted, CheckedOutRevision := "2" } true).1 = false
    ∧ GitCentral.FGitSourceControlStatusFile.GetState
        (GitCentral.FGitSourceControlStatusFile.SetState false
          { SavedStates := [("f", { State := .CheckedOut, CheckedOutRevision := "1" })] }
          "f" { State := .Deleted, CheckedOutRevision := "2" } true).2 "f"
      = { State := .Deleted, CheckedOutRevision := "2" }
    ∧ (GitCentral.FGitSourceControlStatusFile.ClearState false
        { SavedStates := [("f", { State := .CheckedOut, CheckedOutRevision := "1" })] }
        "f" true).1 = false
    ∧ GitCentral.savedFind
        (GitCentral.FGitSourceControlStatusFile.ClearState false
          { SavedStates := [("f", { State := .CheckedOut, CheckedOutRevision := "1" })] }
          "f" true).2.SavedStates "f" = none := by
  refine ⟨rfl, rfl, rfl, rfl⟩

/-- C10 evaluation at the failing input: for a JSON object with no state
string field, SavedState::FromJson does not return false early — the guard
requires TryGetStringField to have failed AND the still-empty StateString to
have length one, which is never true — and instead reaches the checked access
StateString[0] on the empty string (modelled as the none outcome), both for an
empty object and for an object carrying only a revision field. -/
theorem GitCentral.savedState_fromJson_missing_state_reads_out_of_bounds :
    GitCentral.SavedState.FromJson {} (some { stringFields := [] }) = none
    ∧ GitCentral.SavedState.FromJson {} (some { stringFields := [("revision", "3")] })
      = none := by
  refine ⟨rfl, rfl⟩

/-- C8: a single invocation of FGitSourceControlProvider::Tick either finds no
completed command and leaves the queue unchanged, or removes exactly the first
completed command from the queue and hands exactly that one command to
UpdateStates and the completion delegate; every other command — including
every other completed command — remains queued. -/
theorem GitCentral.tick_processes_at_most_one_command
    (q : List GitCentral.FGitSourceControlCommand) :
    ((GitCentral.Tick q).2 = none ∧ (GitCentral.Tick q).1 = q
      ∧ ∀ c ∈ q, c.bExecuteProcessed = false)
    ∨ (∃ pre c post, q = pre ++ c :: post
        ∧ (∀ x ∈ pre, x.bExecuteProcessed = false)
        ∧ c.bExecuteProcessed = true
        ∧ (GitCentral.Tick q).2 = some c
        ∧ (GitCentral.Tick q).1 = pre ++ post) := by
  induction q with
  | nil => left; exact ⟨rfl, rfl, by intro c hc; cases hc⟩
  | cons c rest ih =>
    by_cases h : c.bExecuteProcessed = true
    · right
      exact ⟨[], c, rest, rfl, (by intro x hx; cases hx), h,
        (by simp [GitCentral.Tick, h]), (by simp [GitCentral.Tick, h])⟩
    · rw [Bool.not_eq_true] at h
      rcases ih with ⟨h1, h2, h3⟩ | ⟨pre, c0, post, he, hpre, hc0, h2, h1⟩
      · left
        refine ⟨by simp [GitCentral.Tick, h, h1], by simp [GitCentral.Tick, h, h2], ?_⟩
        intro x hx
        rcases List.mem_cons.mp hx with rfl | hx
        · exact h
        · exact h3 x hx
      · right
        refine ⟨c :: pre, c0, post, by simp [he], ?_, hc0,
          by simp [GitCentral.Tick, h, h2], by simp [GitCentral.Tick, h, h1]⟩
        intro x hx
        rcases List.mem_cons.mp hx with rfl | hx
        · exact h
        · exact hpre x hx

/-- C4: when the index is valid, the remote head SHA was obtained, and the
merge-base of the local and remote branches equals the remote head SHA, the
Sync worker's GetLatest returns success immediately — no stash, rebase or
other mutating git action is performed and the status-file ledger is
untouched — and therefore a second run from the resulting state, with the
repository queries unchanged, is again a no-op success with no ledger
mutation. -/
theorem GitCentral.getLatest_noop_when_merge_base_is_remote_head
    (q : GitCentral.SyncQueries)
    (syncBody : GitCentral.FGitSourceControlStatusFile → GitCentral.SyncOutcome)
    (statusFile : GitCentral.FGitSourceControlStatusFile)
    (hvalid : q.indexState = GitIndexState.Valid)
    (hsha : q.remoteSha ≠ "")
    (hbase : q.mergeBase = q.remoteSha) :
    GitCentral.GetLatest q syncBody statusFile = ⟨true, statusFile, []⟩
    ∧ GitCentral.GetLatest q syncBody
        (GitCentral.GetLatest q syncBody statusFile).statusFile
      = ⟨true, statusFile, []⟩ := by
  have hmain : GitCentral.GetLatest q syncBody statusFile = ⟨true, statusFile, []⟩ := by
    simp [GitCentral.GetLatest, hvalid, hbase, hsha]
  exact ⟨hmain, by rw [hmain]; exact hmain⟩

/-- Witness for the Sync no-op rule: with a valid index and merge-base equal
to the remote head abc, GetLatest succeeds twice from an empty ledger without
touching it, whatever the abstracted protocol body would have done. -/
theorem GitCentral.getLatest_noop_when_merge_base_is_remote_head_witness :
    GitCentral.GetLatest { indexState := .Valid, remoteSha := "abc", mergeBase := "abc" }
        (fun sf => ⟨false, sf, ["rebase"]⟩) {} = ⟨true, {}, []⟩
    ∧ GitCentral.GetLatest { indexState := .Valid, remoteSha := "abc", mergeBase := "abc" }
        (fun sf => ⟨false, sf, ["rebase"]⟩)
        (GitCentral.GetLatest
          { indexState := .Valid, remoteSha := "abc", mergeBase := "abc" }
          (fun sf => ⟨false, sf, ["rebase"]⟩) {}).statusFile
      = ⟨true, {}, []⟩ :=
  GitCentral.getLatest_noop_when_merge_base_is_remote_head _ _ _ rfl (by decide) rfl

/-- Helper: looking up a key after writing through cacheSet. -/
theorem GitCentral.cacheFind_cacheSet (c : GitCentral.StateCache) (k fn : String)
    (v : GitCentral.FGitSourceControlState) :
    GitCentral.cacheFind (GitCentral.cacheSet c k v) fn
      = if k = fn then some v else GitCentral.cacheFind c fn := by
  induction c with
  | nil => simp [GitCentral.cacheSet, GitCentral.cacheFind]
  | cons hd tl ih =>
    obtain ⟨k0, v0⟩ := hd
    by_cases h1 : k0 = k
    · subst h1
      by_cases h2 : k0 = fn <;>
        simp [GitCentral.cacheSet, GitCentral.cacheFind, h2]
    · by_cases h2 : k0 = fn
      · subst h2
        have h3 : ¬k = k0 := fun hh => h1 hh.symm
        simp [GitCentral.cacheSet, GitCentral.cacheFind, h1, h3]
      · simp [GitCentral.cacheSet, GitCentral.cacheFind, h1, h2, ih]

/-- Helper: GetStateInternal never disturbs an entry already in the cache. -/
theorem GitCentral.getStateInternal_preserves_entries
    (cache : GitCentral.StateCache) (fn2 fn : String)
    (st0 : GitCentral.FGitSourceControlState)
    (h : GitCentral.cacheFind cache fn = some st0) :
    GitCentral.cacheFind (GitCentral.GetStateInternal cache fn2).2 fn = some st0 := by
  cases hfind : GitCentral.cacheFind cache fn2 with
  | some st => simp [GitCentral.GetStateInternal, hfind, h]
  | none =>
    by_cases he : fn2 = fn
    · subst he; rw [hfind] at h; cases h
    · simp [GitCentral.GetStateInternal, hfind, GitCentral.cacheFind_cacheSet, he, h]

/-- Helper: GetStateInternal on a cache hit returns the stored entry and
leaves the cache unchanged. -/
theorem GitCentral.getStateInternal_found
    (cache : GitCentral.StateCache) (fn : String)
    (st0 : GitCentral.FGitSourceControlState)
    (h : GitCentral.cacheFind cache fn = some st0) :
    GitCentral.GetStateInternal cache fn = (st0, cache) := by
  simp [GitCentral.GetStateInternal, h]

/-- Helper: the UpdateCachedStates loop preserves the History stored for every
path already in the cache — a replaced entry keeps the History it had before
being replaced. -/
theorem GitCentral.updateCachedStatesGo_preserves_history
    (now : Int) (sts : List GitCentral.FGitSourceControlState) :
    ∀ (cache : GitCentral.StateCache) (fn : String)
      (st0 : GitCentral.FGitSourceControlState),
      GitCentral.cacheFind cache fn = some st0 →
      ∃ st1, GitCentral.cacheFind (GitCentral.UpdateCachedStatesGo now cache sts).2 fn
          = some st1 ∧ st1.History = st0.History := by
  induction sts with
  | nil =>
    intro cache fn st0 h
    exact ⟨st0, by simpa [GitCentral.UpdateCachedStatesGo] using h, rfl⟩
  | cons inState rest ih =>
    intro cache fn st0 h
    by_cases heq : GitCentral.FGitSourceControlState.stateEq
        (GitCentral.GetStateInternal cache inState.AbsoluteFilename).1 inState = true
    · have h2 := GitCentral.getStateInternal_preserves_entries cache
        inState.AbsoluteFilename fn st0 h
      have h3 := ih (GitCentral.GetStateInternal cache inState.AbsoluteFilename).2 fn st0 h2
      simpa [GitCentral.UpdateCachedStatesGo, heq] using h3
    · rw [Bool.not_eq_true] at heq
      by_cases hk : inState.AbsoluteFilename = fn
      · have hfoundEq : GitCentral.GetStateInternal cache inState.AbsoluteFilename
            = (st0, cache) := by
          rw [hk]; exact GitCentral.getStateInternal_found cache fn st0 h
        have h2 : GitCentral.cacheFind
            (GitCentral.cacheSet
              (GitCentral.GetStateInternal cache inState.AbsoluteFilename).2
              inState.AbsoluteFilename
              { inState with
                History := (GitCentral.GetStateInternal cache inState.AbsoluteFilename).1.History
                TimeStamp := now }) fn
            = some { inState with
                History := (GitCentral.GetStateInternal cache inState.AbsoluteFilename).1.History
                TimeStamp := now } := by
          rw [GitCentral.cacheFind_cacheSet]; simp [hk]
        obtain ⟨st1, hf, hh⟩ := ih _ fn _ h2
        refine ⟨st1, ?_, ?_⟩
        · simpa [GitCentral.UpdateCachedStatesGo, heq] using hf
        · rw [hh]; simp [hfoundEq]
      · have h2 := GitCentral.getStateInternal_preserves_entries cache
          inState.AbsoluteFilename fn st0 h
        have h3 : GitCentral.cacheFind
            (GitCentral.cacheSet
              (GitCentral.GetStateInternal cache inState.AbsoluteFilename).2
              inState.AbsoluteFilename
              { inState with
                History := (GitCentral.GetStateInternal cache inState.AbsoluteFilename).1.History
                TimeStamp := now }) fn = some st0 := by
          rw [GitCentral.cacheFind_cacheSet]; simp [hk, h2]
        obtain ⟨st1, hf, hh⟩ := ih _ fn st0 h3
        exact ⟨st1, by simpa [GitCentral.UpdateCachedStatesGo, heq] using hf, hh⟩

/-- C7: UpdateCachedStates republishes a cached entry exactly when the new
state differs under the eight-field operator== — which ignores TimeStamp,
LockId and History; a replaced entry keeps the previously cached History (and
is stamped with the current time); the History of every path already in the
cache survives the whole call; and the call returns true exactly when at
least one entry was updated. -/
theorem GitCentral.updateCachedStates_rules :
    (∀ a b : GitCentral.FGitSourceControlState, ∀ (t l : Int) (hist : List String),
      GitCentral.FGitSourceControlState.stateEq
          { a with TimeStamp := t, LockId := l, History := hist } b
        = GitCentral.FGitSourceControlState.stateEq a b)
    ∧ (∀ (now : Int) (cache : GitCentral.StateCache)
        (st : GitCentral.FGitSourceControlState),
      (GitCentral.FGitSourceControlState.stateEq
          (GitCentral.GetStateInternal cache st.AbsoluteFilename).1 st = true →
        GitCentral.UpdateCachedStates now cache [st]
          = (false, (GitCentral.GetStateInternal cache st.AbsoluteFilename).2))
      ∧ (GitCentral.FGitSourceControlState.stateEq
          (GitCentral.GetStateInternal cache st.AbsoluteFilename).1 st = false →
        GitCentral.UpdateCachedStates now cache [st]
          = (true, GitCentral.cacheSet
              (GitCentral.GetStateInternal cache st.AbsoluteFilename).2
              st.AbsoluteFilename
              { st with
                History := (GitCentral.GetStateInternal cache st.AbsoluteFilename).1.History
                TimeStamp := now })))
    ∧ (∀ (now : Int) (cache : GitCentral.StateCache)
        (sts : List GitCentral.FGitSourceControlState) (fn : String)
        (st0 : GitCentral.FGitSourceControlState),
      GitCentral.cacheFind cache fn = some st0 →
      ∃ st1, GitCentral.cacheFind (GitCentral.UpdateCachedStates now cache sts).2 fn
          = some st1 ∧ st1.History = st0.History)
    ∧ (∀ (now : Int) (cache : GitCentral.StateCache)
        (sts : List GitCentral.FGitSourceControlState),
      (GitCentral.UpdateCachedStates now cache sts).1 = true
        ↔ 0 < (GitCentral.UpdateCachedStatesGo now cache sts).1) := by
  refine ⟨?_, ?_, ?_, ?_⟩
  · intro a b t l hist
    rfl
  · intro now cache st
    constructor
    · intro h
      simp [GitCentral.UpdateCachedStates, GitCentral.UpdateCachedStatesGo, h]
    · intro h
      simp [GitCentral.UpdateCachedStates, GitCentral.UpdateCachedStatesGo, h]
  · intro now cache sts fn st0 h
    simpa [GitCentral.UpdateCachedStates] using
      GitCentral.updateCachedStatesGo_preserves_history now sts cache fn st0 h
  · intro now cache sts
    simp [GitCentral.UpdateCachedStates]

/-- Witness for the cache update rules: the eight-field equality ignores
TimeStamp, LockId and History on concrete states; publishing a Modified state
for path f into an empty cache updates the fresh placeholder entry and
returns true; a pre-existing entry for f keeps its History r1 across a
publish; and the call for an empty input list reports no update. -/
theorem GitCentral.updateCachedStates_rules_witness :
    (GitCentral.FGitSourceControlState.stateEq
        { ({ AbsoluteFilename := "f" } : GitCentral.FGitSourceControlState) with
          TimeStamp := 9, LockId := 7, History := ["h"] }
        { AbsoluteFilename := "f" }
      = GitCentral.FGitSourceControlState.stateEq
        { AbsoluteFilename := "f" } { AbsoluteFilename := "f" })
    ∧ GitCentral.UpdateCachedStates 5 []
        [{ AbsoluteFilename := "f", WorkingCopyState := .Modified }]
      = (true, GitCentral.cacheSet
          (GitCentral.GetStateInternal [] "f").2 "f"
          { ({ AbsoluteFilename := "f", WorkingCopyState := .Modified }
              : GitCentral.FGitSourceControlState) with
            History := (GitCentral.GetStateInternal [] "f").1.History
            TimeStamp := 5 })
    ∧ (∃ st1, GitCentral.cacheFind
        (GitCentral.UpdateCachedStates 5
          [("f", { AbsoluteFilename := "f", History := ["r1"] })]
          [{ AbsoluteFilename := "f", WorkingCopyState := .Modified }]).2 "f"
          = some st1
        ∧ st1.History
          = ({ AbsoluteFilename := "f", History := ["r1"] }
              : GitCentral.FGitSourceControlState).History)
    ∧ ((GitCentral.UpdateCachedStates 5 [] []).1 = true
        ↔ 0 < (GitCentral.UpdateCachedStatesGo 5 [] []).1) := by
  refine ⟨?_, ?_, ?_, ?_⟩
  · exact GitCentral.updateCachedStates_rules.1 _ _ 9 7 ["h"]
  · exact (GitCentral.updateCachedStates_rules.2.1 5 []
      { AbsoluteFilename := "f", WorkingCopyState := .Modified }).2 (by decide)
  · exact GitCentral.updateCachedStates_rules.2.2.1 5
      [("f", { AbsoluteFilename := "f", History := ["r1"] })]
      [{ AbsoluteFilename := "f", WorkingCopyState := .Modified }] "f"
      { AbsoluteFilename := "f", History := ["r1"] } (by decide)
  · exact GitCentral.updateCachedStates_rules.2.2.2 5 [] []
